import Mathlib

/-!
Verification of `src/cargo/core/compiler/cache_layout.rs`.

The module manages the on-disk layout of the build cache:

* `CacheLayout::new` computes the paths `dest = root/CACHE_VERSION`,
  `deps = dest/deps`, `build = dest/build`, `fingerprint = dest/.fingerprint`,
  creates `dest` on first use (excluding it from backups), and acquires an
  exclusive lock on `dest/.cargo-lock`;
* `CacheLayout::prepare` materializes the three subdirectories;
* dropping the layout releases the lock.

The filesystem is modelled explicitly: a state records the set of existing
directories, the set of held locks and an ordered trace of side effects.
Fallible OS calls are resolved by an oracle that fixes the outcome of each
call, so every possible pattern of I/O failures is a choice of oracle.
Every operation returns its result together with the filesystem state it
leaves behind, also on the error path, mirroring the persistence of real
side effects.
-/

/-- A filesystem path, as the list of its components. -/
abbrev FsPath := List String

/-- `Path::join` with a single relative component appends that component. -/
def pjoin (p : FsPath) (c : String) : FsPath := p ++ [c]

/-- The cache version constant (`CACHE_VERSION` in the source, line 81). -/
def CACHE_VERSION : String := "0"

/-- Observable filesystem side effects, in order of occurrence.
`excludeFromBackups` records whether the underlying OS call succeeded;
the Rust function has no error channel, so this is trace-only. -/
inductive Event where
  | createDir (p : FsPath)
  | excludeFromBackups (p : FsPath) (ok : Bool)
  | acquireLock (p : FsPath)
  | releaseLock (p : FsPath)
deriving DecidableEq, Repr

/-- Filesystem state: the directories that exist, the locks currently
held, and the trace of side effects so far. -/
structure FsState where
  dirs : List FsPath
  locks : List FsPath
  trace : List Event
deriving DecidableEq, Repr

/-- Failure-injection oracle: fixes the outcome of each fallible or
best-effort OS call by path. -/
structure FsOracle where
  createDirFails : FsPath → Bool
  lockFails : FsPath → Bool
  excludeFails : FsPath → Bool

/-- `paths::create_dir_all` / `Filesystem::create_dir`: succeeds without
effect when the directory exists, otherwise creates it or fails as the
oracle dictates. -/
def create_dir_all (o : FsOracle) (p : FsPath) (s : FsState) :
    Except String Unit × FsState :=
  if p ∈ s.dirs then (Except.ok (), s)
  else if o.createDirFails p then (Except.error "failed to create directory", s)
  else (Except.ok (),
    { s with dirs := p :: s.dirs, trace := s.trace ++ [Event.createDir p] })

/-- `exclude_from_backups` (source lines 172-199): marks the path as
excluded from backups.  The Rust function returns `()` on every platform
and every outcome; a failing OS call is visible only in the trace. -/
def exclude_from_backups (o : FsOracle) (p : FsPath) (s : FsState) : FsState :=
  { s with trace := s.trace ++ [Event.excludeFromBackups p (!o.excludeFails p)] }

/-- The `FileLock` handle stored in `CacheLayout::_lock`. -/
structure FileLock where
  path : FsPath
deriving DecidableEq, Repr

/-- `Filesystem::open_rw`: create the lock file inside `d` and acquire the
exclusive lock on it, or fail as the oracle dictates. -/
def open_rw (o : FsOracle) (d : FsPath) (name : String) (s : FsState) :
    Except String FileLock × FsState :=
  if o.lockFails (pjoin d name) then (Except.error "failed to acquire lock", s)
  else (Except.ok ⟨pjoin d name⟩,
    { s with locks := pjoin d name :: s.locks,
             trace := s.trace ++ [Event.acquireLock (pjoin d name)] })

/-- `CacheLayout` (source lines 86-100): the computed paths plus the owned
lock handle. -/
structure CacheLayout where
  root : FsPath
  dest : FsPath
  deps : FsPath
  build : FsPath
  fingerprint : FsPath
  _lock : FileLock
deriving DecidableEq, Repr

/-- Source lines 113-119: if `dest` does not exist, create it and exclude
it from backups. -/
def ensure_dest (o : FsOracle) (dest : FsPath) (s : FsState) :
    Except String Unit × FsState :=
  if dest ∈ s.dirs then (Except.ok (), s)
  else
    match create_dir_all o dest s with
    | (Except.error e, t) => (Except.error e, t)
    | (Except.ok _, t) => (Except.ok (), exclude_from_backups o dest t)

/-- `CacheLayout::new` (source lines 106-139).  `cache_dir` is the result
of the configuration provider `cx.bcx.config.cache_dir()`. -/
def CacheLayout.new (cache_dir : Option FsPath) (o : FsOracle) (s : FsState) :
    Except String (Option CacheLayout) × FsState :=
  match cache_dir with
  | none => (Except.ok none, s)
  | some root =>
    match ensure_dest o (pjoin root CACHE_VERSION) s with
    | (Except.error e, s₁) => (Except.error e, s₁)
    | (Except.ok _, s₁) =>
      match open_rw o (pjoin root CACHE_VERSION) ".cargo-lock" s₁ with
      | (Except.error e, s₂) => (Except.error e, s₂)
      | (Except.ok lock, s₂) =>
        (Except.ok (some
          { deps := pjoin (pjoin root CACHE_VERSION) "deps",
            build := pjoin (pjoin root CACHE_VERSION) "build",
            fingerprint := pjoin (pjoin root CACHE_VERSION) ".fingerprint",
            root := root,
            dest := pjoin root CACHE_VERSION,
            _lock := lock }), s₂)

/-- `CacheLayout::prepare` (source lines 142-148): create `deps`, then
`.fingerprint`, then `build`. -/
def CacheLayout.prepare (l : CacheLayout) (o : FsOracle) (s : FsState) :
    Except String Unit × FsState :=
  match create_dir_all o l.deps s with
  | (Except.error e, s₁) => (Except.error e, s₁)
  | (Except.ok _, s₁) =>
    match create_dir_all o l.fingerprint s₁ with
    | (Except.error e, s₂) => (Except.error e, s₂)
    | (Except.ok _, s₂) => create_dir_all o l.build s₂

/-- Dropping a `FileLock` releases the lock (source lines 97-99). -/
def FileLock.drop (fl : FileLock) (s : FsState) : FsState :=
  { s with locks := s.locks.erase fl.path,
           trace := s.trace ++ [Event.releaseLock fl.path] }

/-- Dropping a `CacheLayout` drops its owned `_lock` field. -/
def CacheLayout.drop (l : CacheLayout) (s : FsState) : FsState :=
  FileLock.drop l._lock s

/-- Oracle on which every OS call succeeds. -/
def oracleOk : FsOracle := ⟨fun _ => false, fun _ => false, fun _ => false⟩

/-- The empty filesystem. -/
def fs0 : FsState := ⟨[], [], []⟩

/-- The layout produced by `CacheLayout::new` for root `["r"]`. -/
def cl0 : CacheLayout :=
  { root := ["r"], dest := ["r", "0"], deps := ["r", "0", "deps"],
    build := ["r", "0", "build"], fingerprint := ["r", "0", ".fingerprint"],
    _lock := ⟨["r", "0", ".cargo-lock"]⟩ }

/-- Oracle on which only the creation of `["r", "0", "build"]` fails. -/
def oracleBuildFails : FsOracle :=
  ⟨fun p => decide (p = ["r", "0", "build"]), fun _ => false, fun _ => false⟩

/-- Oracle on which only the creation of `["r", "0", ".fingerprint"]`
fails. -/
def oracleFpFails : FsOracle :=
  ⟨fun p => decide (p = ["r", "0", ".fingerprint"]), fun _ => false, fun _ => false⟩

/-- Oracle on which every lock acquisition fails. -/
def oracleLockFails : FsOracle :=
  ⟨fun _ => false, fun _ => true, fun _ => false⟩

/-- Oracle on which every backup-exclusion OS call fails. -/
def oracleExcludeFails : FsOracle :=
  ⟨fun _ => false, fun _ => false, fun _ => true⟩

/-- Filesystem after `cl0.prepare` succeeded on the empty filesystem. -/
def fs1 : FsState :=
  { dirs := [["r", "0", "build"], ["r", "0", ".fingerprint"], ["r", "0", "deps"]],
    locks := [],
    trace := [Event.createDir ["r", "0", "deps"],
              Event.createDir ["r", "0", ".fingerprint"],
              Event.createDir ["r", "0", "build"]] }

/-- Filesystem after `CacheLayout::new` succeeded for root `["r"]` on the
empty filesystem. -/
def fs2 : FsState :=
  { dirs := [["r", "0"]],
    locks := [["r", "0", ".cargo-lock"]],
    trace := [Event.createDir ["r", "0"],
              Event.excludeFromBackups ["r", "0"] true,
              Event.acquireLock ["r", "0", ".cargo-lock"]] }

/-- Filesystem after `cl0.prepare` on `fs2` failed at the `build` step. -/
def fs3 : FsState :=
  { dirs := [["r", "0", ".fingerprint"], ["r", "0", "deps"], ["r", "0"]],
    locks := [["r", "0", ".cargo-lock"]],
    trace := [Event.createDir ["r", "0"],
              Event.excludeFromBackups ["r", "0"] true,
              Event.acquireLock ["r", "0", ".cargo-lock"],
              Event.createDir ["r", "0", "deps"],
              Event.createDir ["r", "0", ".fingerprint"]] }

/-- Local state of one process competing for the cache lock. -/
inductive ProcState where
  | idle
  | waiting
  | holding
deriving DecidableEq, Repr

/-- Two processes competing for the lock on one `(root, VERSION)` pair. -/
structure LockSys where
  p1 : ProcState
  p2 : ProcState
deriving DecidableEq, Repr

/-- Initially neither process wants the lock. -/
def LockSys.init : LockSys := ⟨ProcState.idle, ProcState.idle⟩

/-- Modelled from the spec: the blocking exclusive-lock semantics of
`FileLock::open_rw` (implemented in `util::flock`, which is not part of
this source tree).  A process may start waiting for the lock at any time;
a waiting process completes its acquisition only when no other process
holds the lock — otherwise it remains blocked in `waiting`; a holder may
release.  There is no timeout: the only exit from `waiting` is a
successful acquisition. -/
inductive LStep : LockSys → LockSys → Prop where
  | request1 (s : LockSys) : s.p1 = ProcState.idle →
      LStep s { s with p1 := ProcState.waiting }
  | acquire1 (s : LockSys) : s.p1 = ProcState.waiting →
      s.p2 ≠ ProcState.holding → LStep s { s with p1 := ProcState.holding }
  | release1 (s : LockSys) : s.p1 = ProcState.holding →
      LStep s { s with p1 := ProcState.idle }
  | request2 (s : LockSys) : s.p2 = ProcState.idle →
      LStep s { s with p2 := ProcState.waiting }
  | acquire2 (s : LockSys) : s.p2 = ProcState.waiting →
      s.p1 ≠ ProcState.holding → LStep s { s with p2 := ProcState.holding }
  | release2 (s : LockSys) : s.p2 = ProcState.holding →
      LStep s { s with p2 := ProcState.idle }

/-- States reachable from the initial lock-system state. -/
inductive Reaches : LockSys → Prop where
  | init : Reaches LockSys.init
  | step (s s' : LockSys) : Reaches s → LStep s s' → Reaches s'

theorem open_rw_ok (o : FsOracle) (d : FsPath) (n : String) (s s' : FsState)
    (fl : FileLock) (h : open_rw o d n s = (Except.ok fl, s')) :
    o.lockFails (pjoin d n) = false ∧ fl = ⟨pjoin d n⟩ ∧
    s' = { s with locks := pjoin d n :: s.locks,
                  trace := s.trace ++ [Event.acquireLock (pjoin d n)] } := by
  unfold open_rw at h
  by_cases hl : o.lockFails (pjoin d n) = true
  · simp [hl] at h
  · simp only [Bool.not_eq_true] at hl
    simp [hl] at h
    exact ⟨hl, h.1.symm, h.2.symm⟩

theorem ensure_dest_ok (o : FsOracle) (d : FsPath) (s s₁ : FsState)
    (h : ensure_dest o d s = (Except.ok (), s₁)) :
    (d ∈ s.dirs ∧ s₁ = s) ∨
    (d ∉ s.dirs ∧ o.createDirFails d = false ∧
      s₁ = { s with dirs := d :: s.dirs,
                    trace := s.trace ++ [Event.createDir d,
                      Event.excludeFromBackups d (!o.excludeFails d)] }) := by
  unfold ensure_dest create_dir_all exclude_from_backups at h
  by_cases hd : d ∈ s.dirs
  · simp [hd] at h
    exact Or.inl ⟨hd, h.symm⟩
  · by_cases hc : o.createDirFails d = true
    · simp [hd, hc] at h
    · simp only [Bool.not_eq_true] at hc
      simp [hd, hc] at h
      exact Or.inr ⟨hd, hc, h.symm⟩

/-- Full characterization of a successful `CacheLayout::new` with a
configured root: the layout's fields, the oracle verdicts it requires,
and the final filesystem state in both the `dest`-exists and the
`dest`-fresh case. -/
theorem new_some_ok (root : FsPath) (o : FsOracle) (s s' : FsState)
    (cl : CacheLayout)
    (h : CacheLayout.new (some root) o s = (Except.ok (some cl), s')) :
    cl = { root := root, dest := pjoin root CACHE_VERSION,
           deps := pjoin (pjoin root CACHE_VERSION) "deps",
           build := pjoin (pjoin root CACHE_VERSION) "build",
           fingerprint := pjoin (pjoin root CACHE_VERSION) ".fingerprint",
           _lock := ⟨pjoin (pjoin root CACHE_VERSION) ".cargo-lock"⟩ } ∧
    o.lockFails (pjoin (pjoin root CACHE_VERSION) ".cargo-lock") = false ∧
    ((pjoin root CACHE_VERSION ∈ s.dirs ∧
        s' = { s with
          locks := pjoin (pjoin root CACHE_VERSION) ".cargo-lock" :: s.locks,
          trace := s.trace ++
            [Event.acquireLock (pjoin (pjoin root CACHE_VERSION) ".cargo-lock")] }) ∨
      (pjoin root CACHE_VERSION ∉ s.dirs ∧
        o.createDirFails (pjoin root CACHE_VERSION) = false ∧
        s' = { dirs := pjoin root CACHE_VERSION :: s.dirs,
               locks := pjoin (pjoin root CACHE_VERSION) ".cargo-lock" :: s.locks,
               trace := s.trace ++
                 [Event.createDir (pjoin root CACHE_VERSION),
                  Event.excludeFromBackups (pjoin root CACHE_VERSION)
                    (!o.excludeFails (pjoin root CACHE_VERSION)),
                  Event.acquireLock
                    (pjoin (pjoin root CACHE_VERSION) ".cargo-lock")] })) := by
  unfold CacheLayout.new at h
  dsimp only at h
  rcases he : ensure_dest o (pjoin root CACHE_VERSION) s with ⟨r₁, s₁⟩
  rw [he] at h
  cases r₁ with
  | error e => simp at h
  | ok u =>
    dsimp only at h
    rcases ho : open_rw o (pjoin root CACHE_VERSION) ".cargo-lock" s₁ with ⟨r₂, s₂⟩
    rw [ho] at h
    cases r₂ with
    | error e => simp at h
    | ok lock =>
      dsimp only at h
      simp only [Prod.mk.injEq, Except.ok.injEq, Option.some.injEq] at h
      obtain ⟨hcl, hs⟩ := h
      obtain ⟨hl, hfl, hs₂⟩ := open_rw_ok o (pjoin root CACHE_VERSION) ".cargo-lock" s₁ s₂ lock ho
      cases u
      rcases ensure_dest_ok o (pjoin root CACHE_VERSION) s s₁ he with ⟨hmem, h₁⟩ | ⟨hmem, hc, h₁⟩
      · subst h₁
        refine ⟨by rw [← hcl, hfl], hl, Or.inl ⟨hmem, ?_⟩⟩
        rw [← hs, hs₂]
      · subst h₁
        refine ⟨by rw [← hcl, hfl], hl, Or.inr ⟨hmem, hc, ?_⟩⟩
        rw [← hs, hs₂]
        simp

/-- C1: for every configured root `R`, a successfully constructed
`CacheLayout` satisfies `dest = R/"0"`, `deps = dest/"deps"`,
`build = dest/"build"`, `fingerprint = dest/".fingerprint"` and
`root = R`, with exactly these literal child names. -/
theorem c1_path_layout (root : FsPath) (o : FsOracle) (s s₁ : FsState)
    (cl : CacheLayout)
    (h : CacheLayout.new (some root) o s = (Except.ok (some cl), s₁)) :
    cl.root = root ∧ cl.dest = pjoin root "0" ∧
    cl.deps = pjoin cl.dest "deps" ∧ cl.build = pjoin cl.dest "build" ∧
    cl.fingerprint = pjoin cl.dest ".fingerprint" := by
  obtain ⟨hcl, -, -⟩ := new_some_ok root o s s₁ cl h
  subst hcl
  exact ⟨rfl, rfl, rfl, rfl, rfl⟩

/-- Witness for C1 at root `["r"]` on the empty filesystem. -/
theorem c1_path_layout_witness :
    cl0.root = ["r"] ∧ cl0.dest = pjoin ["r"] "0" ∧
    cl0.deps = pjoin cl0.dest "deps" ∧ cl0.build = pjoin cl0.dest "build" ∧
    cl0.fingerprint = pjoin cl0.dest ".fingerprint" :=
  c1_path_layout ["r"] oracleOk fs0 _ cl0 (by rfl)

/-- C2: with no configured cache root, `CacheLayout::new` returns the
successful no-layout result and the filesystem state is untouched: no
directory creation, no lock, no backup-exclusion call. -/
theorem c2_no_config_no_effects (o : FsOracle) (s : FsState) :
    CacheLayout.new none o s = (Except.ok none, s) := rfl

theorem create_dir_all_mem (o : FsOracle) (p : FsPath) (s : FsState)
    (hm : p ∈ s.dirs) : create_dir_all o p s = (Except.ok (), s) := by
  unfold create_dir_all
  simp [hm]

theorem create_dir_all_ok (o : FsOracle) (p : FsPath) (s s' : FsState)
    (h : create_dir_all o p s = (Except.ok (), s')) :
    p ∈ s'.dirs ∧ ∀ q, q ∈ s.dirs → q ∈ s'.dirs := by
  unfold create_dir_all at h
  by_cases hm : p ∈ s.dirs
  · simp [hm] at h
    subst h
    exact ⟨hm, fun q hq => hq⟩
  · by_cases hc : o.createDirFails p = true
    · simp [hm, hc] at h
    · simp only [Bool.not_eq_true] at hc
      simp [hm, hc] at h
      subst h
      exact ⟨List.mem_cons_self p s.dirs, fun q hq => List.mem_cons_of_mem p hq⟩

/-- C3: `prepare()` is idempotent — if one call succeeded, an immediate
second call also succeeds and leaves the filesystem state (directories,
locks and trace) completely unchanged. -/
theorem c3_prepare_idempotent (l : CacheLayout) (o : FsOracle) (s s₁ : FsState)
    (h : l.prepare o s = (Except.ok (), s₁)) :
    l.prepare o s₁ = (Except.ok (), s₁) := by
  unfold CacheLayout.prepare at h ⊢
  rcases h1 : create_dir_all o l.deps s with ⟨r₁, t₁⟩
  rw [h1] at h
  cases r₁ with
  | error e => simp at h
  | ok u =>
    cases u
    dsimp only at h
    rcases h2 : create_dir_all o l.fingerprint t₁ with ⟨r₂, t₂⟩
    rw [h2] at h
    cases r₂ with
    | error e => simp at h
    | ok u =>
      cases u
      dsimp only at h
      obtain ⟨hd₁, hmono₁⟩ := create_dir_all_ok o l.deps s t₁ h1
      obtain ⟨hf₂, hmono₂⟩ := create_dir_all_ok o l.fingerprint t₁ t₂ h2
      obtain ⟨hb₃, hmono₃⟩ := create_dir_all_ok o l.build t₂ s₁ h
      rw [create_dir_all_mem o l.deps s₁ (hmono₃ _ (hmono₂ _ hd₁))]
      dsimp only
      rw [create_dir_all_mem o l.fingerprint s₁ (hmono₃ _ hf₂)]
      dsimp only
      exact create_dir_all_mem o l.build s₁ hb₃

/-- Witness for C3: after a successful `prepare` on the empty filesystem,
a second call succeeds and changes nothing. -/
theorem c3_prepare_idempotent_witness :
    cl0.prepare oracleOk fs1 = (Except.ok (), fs1) :=
  c3_prepare_idempotent cl0 oracleOk fs0 fs1 (by rfl)

/-- C4: the backup-exclusion step has no error channel — the outcome of
`CacheLayout::new` (its result and the resulting directories and locks)
is identical under any two oracles that agree on directory creation and
locking but differ arbitrarily on backup-exclusion failures.  A failing
backup-exclusion OS call therefore can never make construction fail. -/
theorem c4_exclude_failure_never_propagates (root : FsPath) (o o' : FsOracle)
    (s : FsState)
    (hc : o.createDirFails = o'.createDirFails)
    (hl : o.lockFails = o'.lockFails) :
    (CacheLayout.new (some root) o s).1 = (CacheLayout.new (some root) o' s).1 ∧
    ((CacheLayout.new (some root) o s).2).dirs =
      ((CacheLayout.new (some root) o' s).2).dirs ∧
    ((CacheLayout.new (some root) o s).2).locks =
      ((CacheLayout.new (some root) o' s).2).locks := by
  obtain ⟨c, lk, ex⟩ := o
  obtain ⟨c', lk', ex'⟩ := o'
  simp only at hc hl
  subst hc
  subst hl
  unfold CacheLayout.new ensure_dest create_dir_all exclude_from_backups open_rw
  dsimp only
  by_cases hm : pjoin root CACHE_VERSION ∈ s.dirs <;>
    by_cases hcd : c (pjoin root CACHE_VERSION) = true <;>
      by_cases hlk : lk (pjoin (pjoin root CACHE_VERSION) ".cargo-lock") = true <;>
        simp [hm, hcd, hlk]

/-- Witness for C4: new under the all-succeeding oracle and under the
oracle whose backup-exclusion call always fails. -/
theorem c4_exclude_failure_never_propagates_witness :
    (CacheLayout.new (some ["r"]) oracleOk fs0).1 =
      (CacheLayout.new (some ["r"]) oracleExcludeFails fs0).1 ∧
    ((CacheLayout.new (some ["r"]) oracleOk fs0).2).dirs =
      ((CacheLayout.new (some ["r"]) oracleExcludeFails fs0).2).dirs ∧
    ((CacheLayout.new (some ["r"]) oracleOk fs0).2).locks =
      ((CacheLayout.new (some ["r"]) oracleExcludeFails fs0).2).locks :=
  c4_exclude_failure_never_propagates ["r"] oracleOk oracleExcludeFails fs0 rfl rfl

/-- C5: in a successful construction, the backup-exclusion hook is invoked
if and only if `dest = root/"0"` did not already exist; if `dest` already
exists, `exclude_from_backups` is not called. -/
theorem c5_exclude_iff_dest_fresh (root : FsPath) (o : FsOracle)
    (s s₁ : FsState) (cl : CacheLayout)
    (h : CacheLayout.new (some root) o s = (Except.ok (some cl), s₁)) :
    (∃ b, Event.excludeFromBackups (pjoin root CACHE_VERSION) b ∈
        s₁.trace.drop s.trace.length) ↔
      pjoin root CACHE_VERSION ∉ s.dirs := by
  obtain ⟨-, -, hcase⟩ := new_some_ok root o s s₁ cl h
  rcases hcase with ⟨hmem, hs⟩ | ⟨hmem, -, hs⟩
  · subst hs
    simp [List.drop_left, hmem]
  · subst hs
    simp [List.drop_left, hmem]

/-- Witness for C5 at root `["r"]` on the empty filesystem, where `dest`
is fresh and the hook runs. -/
theorem c5_exclude_iff_dest_fresh_witness :
    (∃ b, Event.excludeFromBackups (pjoin ["r"] CACHE_VERSION) b ∈
        fs2.trace.drop fs0.trace.length) ↔
      pjoin ["r"] CACHE_VERSION ∉ fs0.dirs :=
  c5_exclude_iff_dest_fresh ["r"] oracleOk fs0 fs2 cl0 (by rfl)

/-- C6: if acquiring the exclusive lock on `dest/".cargo-lock"` fails,
`CacheLayout::new` returns that error to the caller — no layout is
constructed and the failure is not ignored. -/
theorem c6_lock_failure_aborts (root : FsPath) (o : FsOracle) (s : FsState)
    (hl : o.lockFails (pjoin (pjoin root CACHE_VERSION) ".cargo-lock") = true)
    (hd : pjoin root CACHE_VERSION ∈ s.dirs ∨
          o.createDirFails (pjoin root CACHE_VERSION) = false) :
    (CacheLayout.new (some root) o s).1 = Except.error "failed to acquire lock" := by
  unfold CacheLayout.new ensure_dest create_dir_all exclude_from_backups open_rw
  dsimp only
  rcases hd with hd | hd
  · simp [hd, hl]
  · by_cases hm : pjoin root CACHE_VERSION ∈ s.dirs
    · simp [hm, hl]
    · simp [hm, hd, hl]

/-- Witness for C6: the always-failing lock oracle on the empty
filesystem. -/
theorem c6_lock_failure_aborts_witness :
    (CacheLayout.new (some ["r"]) oracleLockFails fs0).1 =
      Except.error "failed to acquire lock" :=
  c6_lock_failure_aborts ["r"] oracleLockFails fs0 rfl (Or.inr rfl)

theorem lock_mutual_exclusion (s : LockSys) (hr : Reaches s) :
    ¬(s.p1 = ProcState.holding ∧ s.p2 = ProcState.holding) := by
  induction hr with
  | init => simp [LockSys.init]
  | step t t' ht hstep ih =>
    cases hstep with
    | request1 h => rintro ⟨h1, -⟩; simp at h1
    | acquire1 hw hn => rintro ⟨-, h2⟩; exact hn h2
    | release1 h => rintro ⟨h1, -⟩; simp at h1
    | request2 h => rintro ⟨-, h2⟩; simp at h2
    | acquire2 hw hn => rintro ⟨h1, -⟩; exact hn h1
    | release2 h => rintro ⟨-, h2⟩; simp at h2

/-- C7: for two competing lock attempts on the same `(root, VERSION)`
pair, at most one process holds the lock at any instant, and while the
first process holds it, no single step can make the second a holder: the
second remains blocked until after the first releases. -/
theorem c7_second_blocks_until_release (s s' : LockSys) (hr : Reaches s)
    (hstep : LStep s s') (h1 : s.p1 = ProcState.holding) :
    s.p2 ≠ ProcState.holding ∧ s'.p2 ≠ ProcState.holding := by
  have hmx := lock_mutual_exclusion s hr
  have h2 : s.p2 ≠ ProcState.holding := fun h2 => hmx ⟨h1, h2⟩
  refine ⟨h2, ?_⟩
  cases hstep with
  | request1 h => exact h2
  | acquire1 hw hn => exact h2
  | release1 h => exact h2
  | request2 h => simp
  | acquire2 hw hn => exact absurd h1 hn
  | release2 h => simp

/-- Witness for C7: the reachable state where process 1 holds the lock
and process 2 waits; process 1 releasing does not make process 2 a
holder in that step. -/
theorem c7_second_blocks_until_release_witness :
    (⟨ProcState.holding, ProcState.waiting⟩ : LockSys).p2 ≠ ProcState.holding ∧
    (⟨ProcState.idle, ProcState.waiting⟩ : LockSys).p2 ≠ ProcState.holding :=
  c7_second_blocks_until_release
    ⟨ProcState.holding, ProcState.waiting⟩ ⟨ProcState.idle, ProcState.waiting⟩
    (Reaches.step _ _
      (Reaches.step _ _
        (Reaches.step _ _ Reaches.init (LStep.request1 _ rfl))
        (LStep.acquire1 _ rfl (by decide)))
      (LStep.request2 _ rfl))
    (LStep.release1 _ rfl) rfl

theorem create_dir_all_locks (o : FsOracle) (p : FsPath) (s : FsState) :
    ((create_dir_all o p s).2).locks = s.locks := by
  unfold create_dir_all
  split
  · rfl
  · split <;> rfl

theorem prepare_locks (l : CacheLayout) (o : FsOracle) (s s₂ : FsState)
    (r : Except String Unit) (h : l.prepare o s = (r, s₂)) :
    s₂.locks = s.locks := by
  unfold CacheLayout.prepare at h
  rcases h1 : create_dir_all o l.deps s with ⟨r₁, t₁⟩
  rw [h1] at h
  have e1 : t₁.locks = s.locks := by
    have hx := create_dir_all_locks o l.deps s
    rw [h1] at hx
    exact hx
  cases r₁ with
  | error e =>
    dsimp only at h
    cases h
    exact e1
  | ok u =>
    dsimp only at h
    rcases h2 : create_dir_all o l.fingerprint t₁ with ⟨r₂, t₂⟩
    rw [h2] at h
    have e2 : t₂.locks = t₁.locks := by
      have hx := create_dir_all_locks o l.fingerprint t₁
      rw [h2] at hx
      exact hx
    cases r₂ with
    | error e =>
      dsimp only at h
      cases h
      rw [e2, e1]
    | ok u =>
      dsimp only at h
      have hx := create_dir_all_locks o l.build t₂
      rw [h] at hx
      rw [hx, e2, e1]

/-- C8: the lock acquired at construction is held as long as the layout
lives — it is still held after `prepare`, whether `prepare` succeeded or
failed — and discarding the layout releases exactly it, on every exit
path. -/
theorem c8_lock_lifetime (root : FsPath) (o o' : FsOracle) (s s₁ s₂ : FsState)
    (cl : CacheLayout) (r : Except String Unit)
    (h : CacheLayout.new (some root) o s = (Except.ok (some cl), s₁))
    (hp : cl.prepare o' s₁ = (r, s₂))
    (hfree : cl._lock.path ∉ s.locks) :
    cl._lock.path ∈ s₁.locks ∧ cl._lock.path ∈ s₂.locks ∧
    cl._lock.path ∉ (cl.drop s₂).locks := by
  obtain ⟨hcl, -, hcase⟩ := new_some_ok root o s s₁ cl h
  have hpath : cl._lock.path = pjoin (pjoin root CACHE_VERSION) ".cargo-lock" := by
    rw [hcl]
  have hlocks : s₁.locks =
      pjoin (pjoin root CACHE_VERSION) ".cargo-lock" :: s.locks := by
    rcases hcase with ⟨-, hs⟩ | ⟨-, -, hs⟩ <;> rw [hs]
  have h2 := prepare_locks cl o' s₁ s₂ r hp
  have hmem₁ : cl._lock.path ∈ s₁.locks := by
    rw [hpath, hlocks]
    exact List.mem_cons_self _ _
  refine ⟨hmem₁, by rw [h2]; exact hmem₁, ?_⟩
  unfold CacheLayout.drop FileLock.drop
  dsimp only
  rw [h2, hlocks, hpath, List.erase_cons_head, ← hpath]
  exact hfree

/-- Witness for C8: construction on the empty filesystem, a `prepare`
that fails at the `build` step, then discard. -/
theorem c8_lock_lifetime_witness :
    cl0._lock.path ∈ fs2.locks ∧ cl0._lock.path ∈ fs3.locks ∧
    cl0._lock.path ∉ (cl0.drop fs3).locks :=
  c8_lock_lifetime ["r"] oracleOk oracleBuildFails fs0 fs2 fs3 cl0
    (Except.error "failed to create directory") (by rfl) (by rfl)
    (by simp [cl0, fs0])

/-- C9: `prepare()` attempts creation in the fixed order `deps`, then
`.fingerprint`, then `build`, and is not atomic on error: when a later
creation fails, the directories created by the earlier steps of the same
call remain on disk and the error is returned with no rollback, as shown
by the exact final state in both failure scenarios. -/
theorem c9_prepare_order_no_rollback :
    (∀ (l : CacheLayout) (o : FsOracle) (s : FsState),
      l.deps ∉ s.dirs → l.fingerprint ∉ s.dirs →
      o.createDirFails l.deps = false →
      o.createDirFails l.fingerprint = true →
      l.prepare o s =
        (Except.error "failed to create directory",
         { s with dirs := l.deps :: s.dirs,
                  trace := s.trace ++ [Event.createDir l.deps] })) ∧
    (∀ (l : CacheLayout) (o : FsOracle) (s : FsState),
      l.deps ∉ s.dirs → l.fingerprint ∉ s.dirs → l.build ∉ s.dirs →
      l.deps ≠ l.fingerprint →
      o.createDirFails l.deps = false →
      o.createDirFails l.fingerprint = false →
      o.createDirFails l.build = true →
      l.prepare o s =
        (Except.error "failed to create directory",
         { s with dirs := l.fingerprint :: l.deps :: s.dirs,
                  trace := s.trace ++ [Event.createDir l.deps,
                                       Event.createDir l.fingerprint] })) := by
  constructor
  · intro l o s hd hf fd ff
    have hne : ¬ l.fingerprint = l.deps := by
      intro e
      rw [← e, ff] at fd
      simp at fd
    unfold CacheLayout.prepare create_dir_all
    simp [hd, hf, fd, ff, hne]
  · intro l o s hd hf hb hdf fd ff fb
    have h1 : ¬ l.fingerprint = l.deps := fun e => hdf e.symm
    have h2 : ¬ l.build = l.deps := by
      intro e
      rw [e, fd] at fb
      simp at fb
    have h3 : ¬ l.build = l.fingerprint := by
      intro e
      rw [e, ff] at fb
      simp at fb
    unfold CacheLayout.prepare create_dir_all
    simp [hd, hf, hb, fd, ff, fb, h1, h2, h3]

/-- Witness for C9: on the empty filesystem, a failure at the
`.fingerprint` step leaves `deps` created, and a failure at the `build`
step leaves `deps` and `.fingerprint` created. -/
theorem c9_prepare_order_no_rollback_witness :
    cl0.prepare oracleFpFails fs0 =
      (Except.error "failed to create directory",
       { fs0 with dirs := cl0.deps :: fs0.dirs,
                  trace := fs0.trace ++ [Event.createDir cl0.deps] }) ∧
    cl0.prepare oracleBuildFails fs0 =
      (Except.error "failed to create directory",
       { fs0 with dirs := cl0.fingerprint :: cl0.deps :: fs0.dirs,
                  trace := fs0.trace ++ [Event.createDir cl0.deps,
                                         Event.createDir cl0.fingerprint] }) :=
  ⟨c9_prepare_order_no_rollback.1 cl0 oracleFpFails fs0 (by decide) (by decide)
      (by decide) (by decide),
   c9_prepare_order_no_rollback.2 cl0 oracleBuildFails fs0 (by decide)
      (by decide) (by decide) (by decide) (by decide) (by decide) (by decide)⟩

/-- C10: when `dest` does not yet exist, a successful `CacheLayout::new`
creates `dest` and calls `exclude_from_backups` strictly before acquiring
the lock on `.cargo-lock`: the trace of side effects is exactly creation,
backup exclusion, then lock acquisition. -/
theorem c10_create_before_lock (root : FsPath) (o : FsOracle) (s s₁ : FsState)
    (cl : CacheLayout)
    (hfresh : pjoin root CACHE_VERSION ∉ s.dirs)
    (h : CacheLayout.new (some root) o s = (Except.ok (some cl), s₁)) :
    s₁.trace = s.trace ++
      [Event.createDir (pjoin root CACHE_VERSION),
       Event.excludeFromBackups (pjoin root CACHE_VERSION)
         (!o.excludeFails (pjoin root CACHE_VERSION)),
       Event.acquireLock (pjoin (pjoin root CACHE_VERSION) ".cargo-lock")] := by
  obtain ⟨-, -, hcase⟩ := new_some_ok root o s s₁ cl h
  rcases hcase with ⟨hmem, -⟩ | ⟨-, -, hs⟩
  · exact absurd hmem hfresh
  · rw [hs]

/-- Witness for C10 at root `["r"]` on the empty filesystem. -/
theorem c10_create_before_lock_witness :
    fs2.trace = fs0.trace ++
      [Event.createDir (pjoin ["r"] CACHE_VERSION),
       Event.excludeFromBackups (pjoin ["r"] CACHE_VERSION)
         (!oracleOk.excludeFails (pjoin ["r"] CACHE_VERSION)),
       Event.acquireLock (pjoin (pjoin ["r"] CACHE_VERSION) ".cargo-lock")] :=
  c10_create_before_lock ["r"] oracleOk fs0 fs2 cl0 (by decide) (by rfl)
